import Mathlib

/-!
Verification development for the curtin storage configuration execution engine
(`curtin/commands/block_meta.py`).

The storage config is an ordered mapping from volume id to a volume
declaration (`extract_storage_ordered_dict` builds an `OrderedDict` keyed by
the `id` field, preserving declaration order).  We embed it as a `List Volume`
in declaration order; lookup by id is first-match, which agrees with the
`OrderedDict` for the well-formed case of pairwise-distinct ids.

External interactions (subprocess invocations, sysfs reads, file writes) are
embedded as an explicit event trace plus an `Env` record that supplies the
outcomes the kernel / external tools would produce (path appearance for
`devsync`, sysfs file contents, subprocess exit status, ...).
-/

/-- One declared storage entity: the fields of a `storage.config` dict entry
that the embedded code reads.  Python dict entries that may be absent are
`Option`s; `id` and `type` are accessed with `d["id"]` / `d["type"]` style
in the source and modelled as plain strings ("" for absent). `preserve`
is read with `.get` and used only for truthiness, so absent and `False`
coincide: a `Bool` with default `false`. -/
structure Volume where
  id : String
  type : String
  preserve : Bool := false
  device : Option String := none
  size : Option String := none
  flag : Option String := none
  number : Option Nat := none
  ptable : Option String := none
  path : Option String := none
  serial : Option String := none
  name : Option String := none
  volgroup : Option String := none
  dm_name : Option String := none
  key : Option String := none
  keysize : Option String := none
  cipher : Option String := none
  volume : Option String := none
  backing_device : Option String := none
  cache_device : Option String := none
  cache_mode : Option String := none
  wipe : Option String := none
  deriving Repr, DecidableEq

/-- First volume whose `id` equals the key: `storage_config.get(key)` on the
`OrderedDict` built by `extract_storage_ordered_dict` (ids unique in any
well-formed config). -/
def lookupVol : List Volume → String → Option Volume
  | [], _ => none
  | v :: rest, k => if v.id = k then some v else lookupVol rest k

/-- `storage_config.get(x)` where `x` itself may be `None` (Python returns
`None` on a `None` key without raising). -/
def storageGet (cfg : List Volume) : Option String → Option Volume
  | none => none
  | some k => lookupVol cfg k

/-- Python truthiness of an optional string field: `None` and `""` are falsy. -/
def optTruthy : Option String → Bool
  | none => false
  | some s => decide (s ≠ "")

/-- Rendering of a possibly-`None` string by Python `"%s" % x`. -/
def pyStr : Option String → String
  | none => "None"
  | some s => s

/-- Rendering of a possibly-`None` integer by Python string formatting. -/
def pyStrNat : Option Nat → String
  | none => "None"
  | some n => toString n

/-- Split off everything up to and including the last `/` of a character
list; `none` when there is no slash. -/
def lastSlashSplit : List Char → Option (List Char × List Char)
  | [] => none
  | c :: rest =>
    match lastSlashSplit rest with
    | some (h, t) => some (c :: h, t)
    | none => if c = '/' then some ([c], rest) else none

/-- `os.path.split`: split at the last `/`; the head keeps a bare run of
slashes but otherwise has trailing slashes stripped. -/
def pathSplit (p : String) : String × String :=
  match lastSlashSplit p.data with
  | none => ("", p)
  | some (h, t) =>
    let head :=
      if h ≠ [] ∧ ¬ (h.all (fun c => c = '/')) then
        (h.reverse.dropWhile (fun c => c = '/')).reverse
      else h
    (String.mk head, String.mk t)

/-- `str.startswith(pre)`, computed on the character lists. -/
def strStartsWith (s pre : String) : Bool := pre.data.isPrefixOf s.data

/-- `str.endswith(suf)`, computed on the character lists. -/
def strEndsWith (s suf : String) : Bool := suf.data.isSuffixOf s.data

/-- `os.path.join` for two components. -/
def pathJoin (a b : String) : String :=
  if strStartsWith b "/" then b
  else if a = "" ∨ strEndsWith a "/" then a ++ b
  else a ++ "/" ++ b

/-- `determine_partition_kname(disk_kname, partition_number)`: NVMe/MMC style
disk names get a `p` infix before the partition number.  The source formats
the number with `"%s"`, so we take it as the already-rendered string. -/
def determine_partition_kname (disk_kname : String) (partition_number : String) : String :=
  if strStartsWith disk_kname "nvme" ∨ strStartsWith disk_kname "mmcblk" then
    disk_kname ++ "p" ++ partition_number
  else
    disk_kname ++ partition_number

/-- The counting loop of `determine_partition_number` (non-logical branch):
iterate the config in declaration order, add one for every entry of type
`partition` on the same parent device, stop at the first such entry carrying
the target id. -/
def partCountBefore (vol : Volume) : List Volume → Nat
  | [] => 0
  | item :: rest =>
    if item.type = "partition" ∧ item.device = vol.device then
      if item.id = vol.id then 0 else partCountBefore vol rest + 1
    else partCountBefore vol rest

/-- The counting loop of `determine_partition_number` (logical branch): same
as `partCountBefore` but restricted to entries with `flag == "logical"`. -/
def logicalCountBefore (vol : Volume) : List Volume → Nat
  | [] => 0
  | item :: rest =>
    if item.type = "partition" ∧ item.device = vol.device ∧ item.flag = some "logical" then
      if item.id = vol.id then 0 else logicalCountBefore vol rest + 1
    else logicalCountBefore vol rest

/-- `determine_partition_number(partition_id, storage_config)`.  An explicit
`number` value wins when truthy (Python `if not partnumber`: `None` and `0`
both fall through to the computed number).  Logical partitions count from 5
over logical siblings only; all other partitions count from 1 over every
partition on the same parent device.  `none` corresponds to the Python
`AttributeError` on a missing volume id. -/
def determine_partition_number (partition_id : String) (cfg : List Volume) : Option Nat :=
  match lookupVol cfg partition_id with
  | none => none
  | some vol =>
    if vol.flag = some "logical" then
      match vol.number with
      | some n => if n = 0 then some (5 + logicalCountBefore vol cfg) else some n
      | none => some (5 + logicalCountBefore vol cfg)
    else
      match vol.number with
      | some n => if n = 0 then some (1 + partCountBefore vol cfg) else some n
      | none => some (1 + partCountBefore vol cfg)

/-- `getnumberoflogicaldisks(device, storage_config)`: the number of config
entries whose `device` equals the given device and whose `flag` is
`"logical"` (no type restriction in the source). -/
def getnumberoflogicaldisks (device : Option String) : List Volume → Nat
  | [] => 0
  | item :: rest =>
    (if item.device = device ∧ item.flag = some "logical" then 1 else 0) +
      getnumberoflogicaldisks device rest

/-- The loop body of `find_previous_partition`: walk the config in order,
remember the partition number of the last non-extended partition on the disk,
stop when the target partition id is reached. -/
def fppLoop (disk_id : Option String) (part_id : String) (cfg : List Volume) :
    List Volume → Option Nat → Option Nat
  | [], last => last
  | item :: rest, last =>
    if item.id = part_id then last
    else if item.type ≠ "partition" ∨ item.device ≠ disk_id then fppLoop disk_id part_id cfg rest last
    else if item.flag = some "extended" then fppLoop disk_id part_id cfg rest last
    else fppLoop disk_id part_id cfg rest (determine_partition_number item.id cfg)

/-- `find_previous_partition(disk_id, part_id, storage_config)`. -/
def find_previous_partition (disk_id : Option String) (part_id : String)
    (cfg : List Volume) : Option Nat :=
  fppLoop disk_id part_id cfg cfg none

/-- The search loop in `partition_handler` for the extended partition of a
disk (first config entry of type `partition` on the device with
`flag == "extended"`); `none` models the Python `NameError` when the loop
never assigns. -/
def findExtendedPartId (device : Option String) : List Volume → Option String
  | [] => none
  | item :: rest =>
    if item.type = "partition" ∧ item.device = device ∧ item.flag = some "extended" then
      some item.id
    else findExtendedPartId device rest

/-- Count of config entries of type `partition` on the given parent device
(declaration order irrelevant); used to state the partition numbering
theorems. -/
def countPartitionsOnDisk (device : Option String) : List Volume → Nat
  | [] => 0
  | item :: rest =>
    (if item.type = "partition" ∧ item.device = device then 1 else 0) +
      countPartitionsOnDisk device rest

/-- Count of config entries of type `partition` on the given parent device
with `flag == "logical"`. -/
def countLogicalPartitionsOnDisk (device : Option String) : List Volume → Nat
  | [] => 0
  | item :: rest =>
    (if item.type = "partition" ∧ item.device = device ∧ item.flag = some "logical" then 1 else 0) +
      countLogicalPartitionsOnDisk device rest

/-- The partitions of disk `d` in declaration order, as the claims describe
them ("partitions declared in order P1..Pn on that disk"). -/
def partitionsOnDisk (d : String) (cfg : List Volume) : List Volume :=
  cfg.filter (fun v => decide (v.type = "partition" ∧ v.device = some d))

/-- Modelled from the spec: `util.human2bytes` is not under `src/` (only its
caller `partition_handler` is).  The spec fixes its interface — "declared
human-readable size converted to sectors" — and the scenario
`size="2GB" → 2*1024^3/512 - 1 sectors` pins binary (1024-based) suffix
multipliers.  A leading decimal count followed by an optional binary suffix
`K/M/G/T` with optional trailing `B`. -/
def human2bytes (s : String) : Option Nat :=
  let digits := s.data.takeWhile (fun c => c.isDigit)
  let suffix := s.data.dropWhile (fun c => c.isDigit)
  match digits with
  | [] => none
  | _ :: _ =>
    let v := digits.foldl (fun acc c => acc * 10 + (c.toNat - 48)) 0
    match String.mk suffix with
    | "" => some v
    | "B" => some v
    | "K" => some (v * 1024)
    | "KB" => some (v * 1024)
    | "M" => some (v * 1024 ^ 2)
    | "MB" => some (v * 1024 ^ 2)
    | "G" => some (v * 1024 ^ 3)
    | "GB" => some (v * 1024 ^ 3)
    | "T" => some (v * 1024 ^ 4)
    | "TB" => some (v * 1024 ^ 4)
    | _ => none

/-- The error kinds the embedded code can raise, mirroring the Python
exception classes. -/
inductive Err where
  | valueError (msg : String)
  | notImplementedError (msg : String)
  | osError (msg : String)
  | processError (argv : List String)
  | typeError
  | attributeError
  | nameError
  | indexError
  | recursionError
  deriving Repr, DecidableEq

/-- One observable external interaction: a subprocess invocation, a file
write, or a file removal. -/
inductive Event where
  | cmd (argv : List String)
  | writeFile (path : String)
  | removeFile (path : String)
  deriving Repr, DecidableEq

deriving instance DecidableEq for Except

/-- The outcomes the environment (kernel device tree, sysfs, external tools,
installer state) supplies to the engine.  Library helpers that live outside
`src/` (`block.lookup_disk`, `block.sys_block_path`, `block.get_volume_uuid`,
`blkid` parsing, sysfs scans) are abstracted as environment functions. -/
structure Env where
  pathExists : String → Bool
  lookupDisk : String → Option String
  bcacheName : String → Option String
  sectorSize : String → Option Nat
  sysStart : String → Option Nat
  sysSize : String → Option Nat
  subpOk : List String → Bool
  fstab : Option String
  scratch : String
  tmpKeyfile : String
  volumeUuid : String → String
  sysBlockPath : String → String
  csetUuid : String → Option String
  makeCsetUuid : String → Option String
  registerOk : String → Bool
  holders : String → List String
  blkid : String → Option String
  mdUuid : String → Option String

/-- `devsync(devpath)`: run `partprobe` (exit 0/1 accepted) and
`udevadm settle`, then poll for the path; `OSError` when it never appears
within the bounded retries (the polling loop is abstracted into
`env.pathExists`). -/
def devsync (env : Env) (devpath : String) : List Event × Except Err Unit :=
  ([Event.cmd ["partprobe", devpath], Event.cmd ["udevadm", "settle"]],
    if env.pathExists devpath then Except.ok () else
      Except.error (Err.osError ("Failed to find device at path: " ++ devpath)))

/-- Events a `devsync` can produce: the `partprobe` of some path or the
`udevadm settle`. -/
def isDevsyncEvent : Event → Bool
  | Event.cmd ["partprobe", _] => true
  | Event.cmd ["udevadm", "settle"] => true
  | _ => false

/-- One event's effect on whether the file at `p` exists. -/
def fileStep (p : String) (b : Bool) : Event → Bool
  | Event.writeFile q => if q = p then true else b
  | Event.removeFile q => if q = p then false else b
  | Event.cmd _ => b

/-- Whether a file exists after the trace ran, assuming it did not exist
before: the last write/remove of that path wins. -/
def fileExistsAfter (p : String) (t : List Event) : Bool :=
  t.foldl (fileStep p) false

/-- The effective device-mapper name at the `get_path_to_storage_volume`
dm_crypt branch: `dm_name = vol.get('dm_name'); if not dm_name:
dm_name = vol.get('id')`. -/
def dmCryptResolveName (vol : Volume) : String :=
  match vol.dm_name with
  | some s => if s = "" then vol.id else s
  | none => vol.id

/-- The per-type branch of `get_path_to_storage_volume`: compute the
candidate path and the path to `devsync` against (the parent disk path for
partitions, the volume path itself otherwise).  Recursive resolution of a
referenced volume is the `recurse` parameter. -/
def resolveBranch (env : Env) (cfg : List Volume)
    (recurse : Option String → List Event × Except Err String)
    (volume : Option String) (vol : Volume) :
    List Event × Except Err (String × String) :=
  if vol.type = "partition" then
    match determine_partition_number vol.id cfg with
    | none => ([], Except.error Err.attributeError)
    | some partnumber =>
      match recurse vol.device with
      | (t1, Except.error e) => (t1, Except.error e)
      | (t1, Except.ok disk_block_path) =>
        let base_path := (pathSplit disk_block_path).1
        let disk_kname := (pathSplit disk_block_path).2
        let partition_kname := determine_partition_kname disk_kname (toString partnumber)
        (t1, Except.ok (pathJoin base_path partition_kname, disk_block_path))
  else if vol.type = "disk" then
    if optTruthy vol.serial then
      match env.lookupDisk (pyStr vol.serial) with
      | some p => ([], Except.ok (p, p))
      | none => ([], Except.error (Err.valueError "no disk with serial found"))
    else if optTruthy vol.path then
      let p := pyStr vol.path
      ([], Except.ok (p, p))
    else
      ([], Except.error (Err.valueError
        "serial number or path to block dev must be specified to identify disk"))
  else if vol.type = "lvm_partition" then
    match storageGet cfg vol.volgroup with
    | none =>
      ([], Except.error (Err.valueError
        ("lvm volume group \x27" ++ pyStr vol.volgroup ++ "\x27 could not be found")))
    | some volgroup =>
      match volgroup.name, vol.name with
      | some vgname, some lvname =>
        ([], Except.ok (pathJoin (pathJoin "/dev/" vgname) lvname,
          pathJoin (pathJoin "/dev/" vgname) lvname))
      | _, _ => ([], Except.error Err.typeError)
  else if vol.type = "dm_crypt" then
    let dm_name := dmCryptResolveName vol
    let p := pathJoin (pathJoin "/dev" "mapper") dm_name
    ([], Except.ok (p, p))
  else if vol.type = "raid" then
    match vol.name with
    | some n => ([], Except.ok (pathJoin "/dev" n, pathJoin "/dev" n))
    | none => ([], Except.error Err.typeError)
  else if vol.type = "bcache" then
    match recurse vol.backing_device with
    | (t1, Except.error e) => (t1, Except.error e)
    | (t1, Except.ok backing_path) =>
      let backing_kname := (pathSplit backing_path).2
      match env.bcacheName backing_kname with
      | none => (t1, Except.error Err.indexError)
      | some bname => (t1, Except.ok (pathJoin "/dev" bname, pathJoin "/dev" bname))
  else
    ([], Except.error (Err.notImplementedError
      ("cannot determine the path to storage volume \x27" ++ pyStr volume ++
        "\x27 with type \x27" ++ vol.type ++ "\x27")))

/-- `get_path_to_storage_volume(volume, storage_config)`, fuel-bounded (the
Python recursion is unbounded; exhausting fuel corresponds to the
`RecursionError` a dependency cycle would raise).  Returns the emitted event
trace together with the resolved path: look the volume up, run the per-type
branch, then `devsync`. -/
def getPathToStorageVolume (env : Env) (cfg : List Volume) :
    Nat → Option String → List Event × Except Err String
  | 0, _ => ([], Except.error Err.recursionError)
  | Nat.succ fuel, volume =>
    match storageGet cfg volume with
    | none =>
      ([], Except.error (Err.valueError
        ("volume with id \x27" ++ pyStr volume ++ "\x27 not found")))
    | some vol =>
      match resolveBranch env cfg (getPathToStorageVolume env cfg fuel) volume vol with
      | (t, Except.error e) => (t, Except.error e)
      | (t, Except.ok (volume_path, devsync_vol)) =>
        let dv := if devsync_vol = "" then volume_path else devsync_vol
        let (t2, r2) := devsync env dv
        (t ++ t2,
          match r2 with
          | Except.ok _ => Except.ok volume_path
          | Except.error e => Except.error e)

/-- `make_dname(volume, storage_config)`.  The udev rule text itself is not
modelled; the observable effects are the probe commands and the rule-file
write.  Library helpers (`blkid` output parsing, `mdadm_query_detail`) are
abstracted into `env`; the `mdadm` detail query is recorded as a marker
command event. -/
def make_dname (env : Env) (fuel : Nat) (volume : String) (cfg : List Volume) :
    List Event × Except Err Unit :=
  let rules_dir := pathJoin env.scratch "rules.d"
  let ruleFile := pathJoin rules_dir volume
  match lookupVol cfg volume with
  | none => ([], Except.error Err.attributeError)
  | some vol =>
    match getPathToStorageVolume env cfg fuel (some volume) with
    | (t, Except.error e) => (t, Except.error e)
    | (t, Except.ok path) =>
      if vol.type = "partition" ∨ vol.type = "disk" then
        let t := t ++ [Event.cmd ["blkid", "-o", "export", path]]
        match env.blkid path with
        | none => (t, Except.ok ())
        | some _ptuuid =>
          if vol.type = "partition" then
            match storageGet cfg vol.device with
            | none => (t, Except.error Err.attributeError)
            | some parent =>
              match parent.name with
              | none => (t, Except.error Err.typeError)
              | some _ =>
                match determine_partition_number volume cfg with
                | none => (t, Except.error Err.attributeError)
                | some _ => (t ++ [Event.writeFile ruleFile], Except.ok ())
          else (t ++ [Event.writeFile ruleFile], Except.ok ())
      else if vol.type = "raid" then
        (t ++ [Event.cmd ["mdadm_query_detail", path], Event.writeFile ruleFile], Except.ok ())
      else if vol.type = "lvm_partition" then
        match storageGet cfg vol.volgroup with
        | none => (t, Except.error Err.attributeError)
        | some _volgroup => (t ++ [Event.writeFile ruleFile], Except.ok ())
      else
        (t ++ [Event.writeFile ruleFile], Except.ok ())

/-- `alignment_offset = int((1 << 20) / logical_block_size_bytes)`: 1 MiB in
logical sectors. -/
def alignmentOffset (lbs : Nat) : Nat := (1 <<< 20) / lbs

/-- The offset computation of `partition_handler`.  For partition number 1
the partition starts at one alignment unit.  Otherwise the previous
partition's kernel-reported geometry is read from sysfs (contents abstracted
into `env.sysSize` / `env.sysStart`, reported in 512-byte units as the
`XXX: sys/block` comment in the source notes): for number 5 on an MS-DOS
table the "previous" partition is the extended partition (a missing one is
the Python `NameError`), otherwise `find_previous_partition`.  GPT and
non-logical partitions start right after the previous partition; logical
partitions add one alignment unit (and number 5 starts inside the extended
partition). -/
def computeOffsetSectors (env : Env) (cfg : List Volume) (device : Option String)
    (part_id : String) (disk_kname : String) (disk_ptable flag : Option String)
    (partnumber lbs : Nat) : Except Err Nat :=
  let align := alignmentOffset lbs
  if partnumber = 1 then Except.ok align
  else
    let prevDir : Except Err String :=
      if partnumber = 5 ∧ disk_ptable = some "msdos" then
        match findExtendedPartId device cfg with
        | none => Except.error Err.nameError
        | some eid =>
          match determine_partition_number eid cfg with
          | none => Except.error Err.attributeError
          | some eno =>
            Except.ok ("/sys/block/" ++ disk_kname ++ "/" ++
              determine_partition_kname disk_kname (toString eno) ++ "/")
      else
        let pnum := find_previous_partition device part_id cfg
        Except.ok ("/sys/block/" ++ disk_kname ++ "/" ++
          determine_partition_kname disk_kname (pyStrNat pnum) ++ "/")
    match prevDir with
    | Except.error e => Except.error e
    | Except.ok pdir =>
      match env.sysSize (pathJoin pdir "size"), env.sysStart (pathJoin pdir "start") with
      | some psize, some pstart =>
        let previous_size_sectors := psize * 512 / lbs
        let previous_start_sectors := pstart * 512 / lbs
        if disk_ptable = some "gpt" ∨ flag ≠ some "logical" then
          Except.ok (previous_start_sectors + previous_size_sectors)
        else if partnumber = 5 then
          Except.ok (previous_start_sectors + align)
        else
          Except.ok (previous_start_sectors + previous_size_sectors + align)
      | _, _ => Except.error (Err.osError "load_file")

/-- The length computation of `partition_handler`: declared bytes to sectors
with an inclusive end sector (`int(length_bytes / lbs) - 1`), and an
"extended" partition reserves one extra alignment unit per logical partition
on the same device. -/
def computeLengthSectors (device : Option String) (cfg : List Volume)
    (flag : Option String) (length_bytes lbs : Nat) : Int :=
  let base : Int := (Int.ofNat (length_bytes / lbs)) - 1
  if flag = some "extended" then
    base + Int.ofNat (getnumberoflogicaldisks device cfg * alignmentOffset lbs)
  else base

/-- The context `partition_handler` has built once geometry is known. -/
structure PartCtx where
  diskVol : Volume
  disk : String
  disk_kname : String
  sectorSize : Nat
  partnumber : Nat
  offset_sectors : Nat
  length_sectors : Int
  deriving Repr, DecidableEq

/-- Lines 474–571 of `partition_handler`, before the preserve handling: field
checks (note the source reads `storage_config.get(device).get('ptable')`
before checking `device`, so a missing device id is an `AttributeError`),
parent-disk path resolution (performed twice, as in the source), partition
number, logical sector size (defaulting to 512 when the sysfs read fails),
and the geometry. -/
def partitionPrelude (env : Env) (fuel : Nat) (info : Volume) (cfg : List Volume) :
    List Event × Except Err PartCtx :=
  match storageGet cfg info.device with
  | none => ([], Except.error Err.attributeError)
  | some diskVol =>
    if ¬ optTruthy info.device then
      ([], Except.error (Err.valueError "device must be set for partition to be created"))
    else if ¬ optTruthy info.size then
      ([], Except.error (Err.valueError "size must be specified for partition to be created"))
    else
      match getPathToStorageVolume env cfg fuel info.device with
      | (t1, Except.error e) => (t1, Except.error e)
      | (t1, Except.ok disk) =>
        match determine_partition_number info.id cfg with
        | none => (t1, Except.error Err.attributeError)
        | some partnumber =>
          match getPathToStorageVolume env cfg fuel info.device with
          | (t2, Except.error e) => (t1 ++ t2, Except.error e)
          | (t2, Except.ok diskPath2) =>
            let disk_kname := (pathSplit diskPath2).2
            let lbs :=
              match env.sectorSize disk_kname with
              | some n => n
              | none => 512
            match computeOffsetSectors env cfg info.device info.id disk_kname
                diskVol.ptable info.flag partnumber lbs with
            | Except.error e => (t1 ++ t2, Except.error e)
            | Except.ok offset =>
              match human2bytes (pyStr info.size) with
              | none => (t1 ++ t2, Except.error (Err.valueError "cannot parse size"))
              | some length_bytes =>
                (t1 ++ t2, Except.ok
                  ⟨diskVol, disk, disk_kname, lbs, partnumber, offset,
                    computeLengthSectors info.device cfg info.flag length_bytes lbs⟩)

/-- `sgdisk --list-types` table lookup: a truthy flag found in the table,
otherwise the `linux` typecode. -/
def sgdiskTypecode : Option String → String
  | some "boot" => "ef00"
  | some "lvm" => "8e00"
  | some "raid" => "fd00"
  | some "bios_grub" => "ef02"
  | some "prep" => "4100"
  | some "swap" => "8200"
  | some "home" => "8302"
  | some "linux" => "8300"
  | _ => "8300"

/-- The `NotImplementedError` message of `partition_handler`'s preserve
consistency check (the source string's line-continuation whitespace is
normalized to single spaces). -/
def preserveErrMsg (info : Volume) : String :=
  "Partition \x27" ++ info.id ++ "\x27 is not marked to be preserved, but device \x27" ++
    pyStr info.device ++ "\x27 is. At this time, preserving devices but not also the " ++
    "partitions on the devices is not supported, because of the possibility of " ++
    "damaging partitions intended to be preserved."

/-- `partition_handler(info, storage_config)`: geometry (see
`partitionPrelude`), then preserve handling — a preserved partition returns
immediately, a non-preserved partition on a preserved parent device is a
`NotImplementedError` — then partition creation with the table-appropriate
tool, the optional wipe (skipped for extended partitions), and the optional
dname rule.  `block.wipe_volume` is a library helper outside `src/` and is
recorded as a marker command event. -/
def partition_handler (env : Env) (fuel : Nat) (info : Volume) (cfg : List Volume) :
    List Event × Except Err Unit :=
  match partitionPrelude env fuel info cfg with
  | (t, Except.error e) => (t, Except.error e)
  | (t, Except.ok ctx) =>
    if info.preserve then (t, Except.ok ())
    else if ctx.diskVol.preserve then
      (t, Except.error (Err.notImplementedError (preserveErrMsg info)))
    else
      let createRes : List Event × Except Err (Option String) :=
        if ctx.diskVol.ptable = some "msdos" then
          let partition_type :=
            match info.flag with
            | some f => if f = "extended" ∨ f = "logical" ∨ f = "primary" then f else "primary"
            | none => "primary"
          let c := ["parted", ctx.disk, "--script", "mkpart", partition_type,
            toString ctx.offset_sectors ++ "s",
            toString ((Int.ofNat ctx.offset_sectors) + ctx.length_sectors) ++ "s"]
          ([Event.cmd c],
            if env.subpOk c then Except.ok (some partition_type)
            else Except.error (Err.processError c))
        else if ctx.diskVol.ptable = some "gpt" then
          let c := ["sgdisk", "--new",
            toString ctx.partnumber ++ ":" ++ toString ctx.offset_sectors ++ ":" ++
              toString (ctx.length_sectors + (Int.ofNat ctx.offset_sectors)),
            "--typecode=" ++ toString ctx.partnumber ++ ":" ++ sgdiskTypecode info.flag,
            ctx.disk]
          ([Event.cmd c],
            if env.subpOk c then Except.ok none else Except.error (Err.processError c))
        else ([], Except.error (Err.valueError "parent partition has invalid partition table"))
      match createRes with
      | (tc, Except.error e) => (t ++ tc, Except.error e)
      | (tc, Except.ok partition_type) =>
        let wipeRes : List Event × Except Err Unit :=
          if optTruthy info.wipe ∧ info.wipe ≠ some "none" then
            if info.flag = some "extended" then ([], Except.ok ())
            else
              match getPathToStorageVolume env cfg fuel (some info.id) with
              | (tw, Except.error e) => (tw, Except.error e)
              | (tw, Except.ok p) =>
                (tw ++ [Event.cmd ["wipe_volume", pyStr info.wipe, p]], Except.ok ())
          else ([], Except.ok ())
        match wipeRes with
        | (tw, Except.error e) => (t ++ tc ++ tw, Except.error e)
        | (tw, Except.ok _) =>
          if optTruthy ctx.diskVol.name ∧ partition_type ≠ some "extended" then
            match make_dname env fuel info.id cfg with
            | (td, r) => (t ++ tc ++ tw ++ td, r)
          else (t ++ tc ++ tw, Except.ok ())

/-- The effective device-mapper name in `dm_crypt_handler`:
`if not dm_name: dm_name = info.get('id')`. -/
def dmCryptHandlerName (info : Volume) : String :=
  if optTruthy info.dm_name then pyStr info.dm_name else info.id

/-- The `cryptsetup luksFormat` invocation built by `dm_crypt_handler`:
optional `--cipher` and `--key-size` arguments, then
`luksFormat <volume_path> <keyfile>`. -/
def dmCryptFmtCmd (info : Volume) (volume_path kf : String) : List String :=
  ["cryptsetup"] ++
    (if optTruthy info.cipher then ["--cipher", pyStr info.cipher] else []) ++
    (if optTruthy info.keysize then ["--key-size", pyStr info.keysize] else []) ++
    ["luksFormat", volume_path, kf]

/-- The `cryptsetup open` invocation built by `dm_crypt_handler`. -/
def dmCryptOpenCmd (info : Volume) (volume_path kf : String) : List String :=
  ["cryptsetup", "open", "--type", "luks", volume_path, dmCryptHandlerName info,
    "--key-file", kf]

/-- `dm_crypt_handler(info, storage_config)`: validate volume and key, default
the dm name, resolve the underlying volume, write the key to the transient
keyfile (`tempfile.mkstemp`, abstracted as `env.tmpKeyfile`), run
`cryptsetup luksFormat` and `cryptsetup open` (each raising
`ProcessExecutionError` on non-zero exit), remove the keyfile, and append a
crypttab entry next to the fstab when one is configured. -/
def dm_crypt_handler (env : Env) (fuel : Nat) (info : Volume) (cfg : List Volume) :
    List Event × Except Err Unit :=
  if ¬ optTruthy info.volume then
    ([], Except.error (Err.valueError "volume for cryptsetup to operate on must be specified"))
  else if ¬ optTruthy info.key then
    ([], Except.error (Err.valueError "encryption key must be specified"))
  else
    match getPathToStorageVolume env cfg fuel info.volume with
    | (t, Except.error e) => (t, Except.error e)
    | (t, Except.ok volume_path) =>
      let kf := env.tmpKeyfile
      let t := t ++ [Event.writeFile kf]
      let fmtCmd := dmCryptFmtCmd info volume_path kf
      if ¬ env.subpOk fmtCmd then
        (t ++ [Event.cmd fmtCmd], Except.error (Err.processError fmtCmd))
      else
        let openCmd := dmCryptOpenCmd info volume_path kf
        if ¬ env.subpOk openCmd then
          (t ++ [Event.cmd fmtCmd, Event.cmd openCmd], Except.error (Err.processError openCmd))
        else
          let t := t ++ [Event.cmd fmtCmd, Event.cmd openCmd, Event.removeFile kf]
          if optTruthy env.fstab then
            (t ++ [Event.writeFile (pathJoin (pathSplit (pyStr env.fstab)).1 "crypttab")],
              Except.ok ())
          else (t, Except.ok ())

/-- `ensure_bcache_is_registered(bcache_device, expected)`: settle and check
the expected sysfs path; when absent, fall back to writing the device to
`/sys/fs/bcache/register` and settle again.  The bounded retry loop (up to 5
attempts against the registration race) is abstracted into
`env.registerOk`. -/
def ensureBcacheRegistered (env : Env) (bcache_device expected : String) :
    List Event × Except Err Unit :=
  if env.pathExists expected then
    ([Event.cmd ["udevadm", "settle"]], Except.ok ())
  else
    ([Event.cmd ["udevadm", "settle"], Event.writeFile "/sys/fs/bcache/register",
      Event.cmd ["udevadm", "settle"]],
      if env.registerOk bcache_device then Except.ok ()
      else Except.error (Err.valueError
        ("bcache device " ++ bcache_device ++ " can\x27t be registered")))

/-- Shared tail of `bcache_handler`: optional dname rule, then the
unconditional rejection of a partition table on the bcache device. -/
def bcacheEpilogue (env : Env) (fuel : Nat) (info : Volume) (cfg : List Volume)
    (t : List Event) : List Event × Except Err Unit :=
  let ptableCheck : Except Err Unit :=
    if optTruthy info.ptable then
      Except.error (Err.valueError
        "Partition tables on top of lvm logical volumes is not supported")
    else Except.ok ()
  if optTruthy info.name then
    match make_dname env fuel info.id cfg with
    | (td, Except.error e) => (t ++ td, Except.error e)
    | (td, Except.ok _) => (t ++ td, ptableCheck)
  else (t, ptableCheck)

/-- `bcache_handler(info, storage_config)`.  Both device references are
resolved through `get_path_to_storage_volume` up front, so a missing
`cache_device`/`backing_device` key fails there (resolution of the `None` id)
before the handler's own `"must be specified"` check can ever fire.  Sysfs
interactions (`/sys/class/block` layout, cset uuid extraction from tool
output, holders) are abstracted into `env`. -/
def bcache_handler (env : Env) (fuel : Nat) (info : Volume) (cfg : List Volume) :
    List Event × Except Err Unit :=
  match getPathToStorageVolume env cfg fuel info.backing_device with
  | (t1, Except.error e) => (t1, Except.error e)
  | (t1, Except.ok backing_device) =>
    match getPathToStorageVolume env cfg fuel info.cache_device with
    | (t2, Except.error e) => (t1 ++ t2, Except.error e)
    | (t2, Except.ok cache_device) =>
      let t := t1 ++ t2
      if backing_device = "" ∨ cache_device = "" then
        (t, Except.error (Err.valueError
          "backing device and cache device for bcache must be specified"))
      else
        let t := t ++ [Event.cmd ["modprobe", "bcache"], Event.cmd ["udevadm", "settle"]]
        let cache_sysfs := env.sysBlockPath cache_device
        let cacheRes : List Event × Except Err String :=
          if env.pathExists (pathJoin cache_sysfs "bcache") then
            ([Event.cmd ["bcache-super-show", cache_device]],
              match env.csetUuid cache_device with
              | some u => Except.ok u
              | none => Except.error Err.indexError)
          else
            ([Event.cmd ["make-bcache", "-C", cache_device]],
              match env.makeCsetUuid cache_device with
              | some u => Except.ok u
              | none => Except.error Err.indexError)
        match cacheRes with
        | (tc, Except.error e) => (t ++ tc, Except.error e)
        | (tc, Except.ok cset_uuid) =>
          let t := t ++ tc
          match ensureBcacheRegistered env cache_device ("/sys/fs/bcache/" ++ cset_uuid) with
          | (tr, Except.error e) => (t ++ tr, Except.error e)
          | (tr, Except.ok _) =>
            let t := t ++ tr
            let backing_sysfs := env.sysBlockPath backing_device
            let tgt := pathJoin backing_sysfs "bcache"
            let tm :=
              if ¬ env.pathExists tgt then [Event.cmd ["make-bcache", "-B", backing_device]]
              else []
            match ensureBcacheRegistered env backing_device tgt with
            | (tr2, Except.error e) => (t ++ tm ++ tr2, Except.error e)
            | (tr2, Except.ok _) =>
              let t := t ++ tm ++ tr2
              match env.holders backing_device with
              | [bcache_dev] =>
                if cset_uuid ≠ "" then
                  let t := t ++
                    [Event.writeFile (pathJoin (pathJoin backing_sysfs "bcache") "attach")]
                  let t :=
                    if optTruthy info.cache_mode then
                      t ++ [Event.writeFile
                        ("/sys/block/" ++ bcache_dev ++ "/bcache/cache_mode")]
                    else t
                  bcacheEpilogue env fuel info cfg t
                else
                  (t, Except.error (Err.valueError ("Invalid cset_uuid: " ++ cset_uuid)))
              | hs =>
                (t, Except.error (Err.valueError
                  ("Invalid number " ++ toString hs.length ++ " of holding devices")))

/-- The nine keys of the `command_handlers` dict in `meta_custom`. -/
def knownHandlerTypes : List String :=
  ["disk", "partition", "format", "mount", "lvm_volgroup", "lvm_partition",
    "dm_crypt", "raid", "bcache"]

/-- The dispatcher loop of `meta_custom`, parametric in the behaviour `runH`
of the nine type handlers: iterate the config in declaration order, look the
handler up by declared type — a miss raises
`ValueError("unknown command type '<type>'")` before anything runs for that
entry — execute it (the reporting scope has no observable effect here), tag
its events with the entry id, and abort the whole run on the first error. -/
def metaCustom (runH : Volume → List Event × Except Err Unit) :
    List Volume → List (String × Event) × Except Err Unit
  | [] => ([], Except.ok ())
  | v :: rest =>
    if v.type ∈ knownHandlerTypes then
      match runH v with
      | (t, Except.ok _) =>
        match metaCustom runH rest with
        | (t2, r2) => (t.map (fun e => (v.id, e)) ++ t2, r2)
      | (t, Except.error e) => (t.map (fun ev => (v.id, ev)), Except.error e)
    else
      ([], Except.error (Err.valueError ("unknown command type \x27" ++ v.type ++ "\x27")))

/-! ### Concrete environments and configurations used by witnesses and
counterexamples -/

/-- A benign environment: every device path appears on `devsync`, the disk
`sda` reports 512-byte logical sectors, every external command succeeds. -/
def wEnv : Env where
  pathExists := fun _ => true
  lookupDisk := fun _ => none
  bcacheName := fun _ => none
  sectorSize := fun k => if k = "sda" then some 512 else none
  sysStart := fun _ => none
  sysSize := fun _ => none
  subpOk := fun _ => true
  fstab := some "/tmp/state/fstab"
  scratch := "/tmp/state"
  tmpKeyfile := "/tmp/tmpkeyfile"
  volumeUuid := fun _ => "uuid-1"
  sysBlockPath := fun p => "/sys/class/block/" ++ (pathSplit p).2
  csetUuid := fun _ => some "cset-1"
  makeCsetUuid := fun _ => some "cset-1"
  registerOk := fun _ => true
  holders := fun _ => ["bcache0"]
  blkid := fun _ => none
  mdUuid := fun _ => none

/-- Like `wEnv` but `cryptsetup luksFormat` exits non-zero. -/
def wEnvFmtFail : Env :=
  { wEnv with subpOk := fun a => ! a.contains "luksFormat" }

def wDiskGpt : Volume :=
  { id := "d1", type := "disk", ptable := some "gpt", path := some "/dev/sda" }

def wPart2G : Volume :=
  { id := "p1", type := "partition", device := some "d1", size := some "2GB" }

/-- The spec scenario graph: disk `d1` (gpt, `/dev/sda`), partition `p1`
(device=d1, size 2GB). -/
def wCfgScenario : List Volume := [wDiskGpt, wPart2G]

def wPartPreserved : Volume := { wPart2G with preserve := true }

/-- Partition preserved, parent disk not preserved. -/
def wCfgPreservedPart : List Volume := [wDiskGpt, wPartPreserved]

def wDiskGptPreserved : Volume := { wDiskGpt with preserve := true }

/-- Parent disk preserved, partition not preserved. -/
def wCfgPreservedDisk : List Volume := [wDiskGptPreserved, wPart2G]

def wDiskMbr : Volume :=
  { id := "d1", type := "disk", ptable := some "msdos", path := some "/dev/sda" }

def wPrim1 : Volume :=
  { id := "q1", type := "partition", device := some "d1", size := some "1G" }

def wPrim2 : Volume :=
  { id := "q2", type := "partition", device := some "d1", size := some "1G" }

def wExt : Volume :=
  { id := "e1", type := "partition", device := some "d1", size := some "4G",
    flag := some "extended" }

def wLog1 : Volume :=
  { id := "l1", type := "partition", device := some "d1", size := some "1G",
    flag := some "logical" }

def wLog2 : Volume :=
  { id := "l2", type := "partition", device := some "d1", size := some "1G",
    flag := some "logical" }

def wPrimLate : Volume :=
  { id := "q3", type := "partition", device := some "d1", size := some "1G" }

/-- MS-DOS disk with two primaries, an extended partition, two logical
partitions, and a late primary. -/
def wCfgMbr : List Volume := [wDiskMbr, wPrim1, wPrim2, wExt, wLog1, wLog2, wPrimLate]

/-- A partition declaring the explicit number 0 (falsy in Python). -/
def wNum0 : Volume :=
  { id := "z0", type := "partition", device := some "d1", size := some "1G",
    number := some 0 }

def wCfgNum0 : List Volume := [wDiskMbr, wPrim1, wNum0]

/-- A partition declaring the explicit (nonzero) number 9. -/
def wNum9 : Volume :=
  { id := "z9", type := "partition", device := some "d1", size := some "1G",
    number := some 9 }

def wCfgNum9 : List Volume := [wDiskMbr, wPrim1, wNum9]

def wDiskB : Volume := { id := "db", type := "disk", path := some "/dev/sdb" }

/-- A bcache volume declaring a backing device and a cache mode but no
`cache_device`. -/
def wBcacheNoCache : Volume :=
  { id := "b1", type := "bcache", backing_device := some "db",
    cache_mode := some "writeback" }

def wCfgBcache : List Volume := [wDiskB, wBcacheNoCache]

def wCrypt : Volume :=
  { id := "crypt0", type := "dm_crypt", volume := some "db", key := some "topsecret" }

def wCfgCrypt : List Volume := [wDiskB, wCrypt]

/-- A volume with a declared type none of the nine handlers covers. -/
def wUnknown : Volume := { id := "v1", type := "fancy" }

/-! ### Helper lemmas about the numbering loops -/

theorem lookupVol_append_of_not_before (l1 l2 : List Volume) (vol : Volume)
    (h : ∀ u ∈ l1, u.id ≠ vol.id) :
    lookupVol (l1 ++ vol :: l2) vol.id = some vol := by
  induction l1 with
  | nil => simp [lookupVol]
  | cons u l1 ih =>
    have hu : u.id ≠ vol.id := h u (by simp)
    simp only [List.cons_append, lookupVol, if_neg hu]
    exact ih (fun w hw => h w (by simp [hw]))

theorem partCountBefore_append (l1 l2 : List Volume) (vol : Volume)
    (htype : vol.type = "partition")
    (h : ∀ u ∈ l1, u.id ≠ vol.id) :
    partCountBefore vol (l1 ++ vol :: l2) = countPartitionsOnDisk vol.device l1 := by
  induction l1 with
  | nil => simp [partCountBefore, countPartitionsOnDisk, htype]
  | cons u l1 ih =>
    have hu : u.id ≠ vol.id := h u (by simp)
    have ih' := ih (fun w hw => h w (by simp [hw]))
    by_cases hc : u.type = "partition" ∧ u.device = vol.device
    · simp [partCountBefore, countPartitionsOnDisk, hc, hu, ih']
      omega
    · simp [partCountBefore, countPartitionsOnDisk, hc, ih']

theorem logicalCountBefore_append (l1 l2 : List Volume) (vol : Volume)
    (htype : vol.type = "partition")
    (hflag : vol.flag = some "logical")
    (h : ∀ u ∈ l1, u.id ≠ vol.id) :
    logicalCountBefore vol (l1 ++ vol :: l2) = countLogicalPartitionsOnDisk vol.device l1 := by
  induction l1 with
  | nil => simp [logicalCountBefore, countLogicalPartitionsOnDisk, htype, hflag]
  | cons u l1 ih =>
    have hu : u.id ≠ vol.id := h u (by simp)
    have ih' := ih (fun w hw => h w (by simp [hw]))
    by_cases hc : u.type = "partition" ∧ u.device = vol.device ∧ u.flag = some "logical"
    · simp [logicalCountBefore, countLogicalPartitionsOnDisk, hc, hu, ih']
      omega
    · simp [logicalCountBefore, countLogicalPartitionsOnDisk, hc, ih']

theorem partitionsOnDisk_split (d : String) (cfg : List Volume) (ps1 ps2 : List Volume)
    (vol : Volume) (hsplit : partitionsOnDisk d cfg = ps1 ++ vol :: ps2) :
    ∃ l1 l2, cfg = l1 ++ vol :: l2 ∧ countPartitionsOnDisk (some d) l1 = ps1.length := by
  induction cfg generalizing ps1 with
  | nil =>
    simp [partitionsOnDisk] at hsplit
  | cons u cfg ih =>
    by_cases hc : u.type = "partition" ∧ u.device = some d
    · have hfil : partitionsOnDisk d (u :: cfg) = u :: partitionsOnDisk d cfg := by
        simp [partitionsOnDisk, List.filter_cons, hc]
      rw [hfil] at hsplit
      cases ps1 with
      | nil =>
        simp at hsplit
        refine ⟨[], cfg, ?_, rfl⟩
        simp [hsplit.1]
      | cons y ps1 =>
        simp at hsplit
        obtain ⟨l1, l2, hcfg, hcount⟩ := ih ps1 hsplit.2
        refine ⟨u :: l1, l2, by simp [hcfg], ?_⟩
        simp [countPartitionsOnDisk, hc, hcount]
        omega
    · have hfil : partitionsOnDisk d (u :: cfg) = partitionsOnDisk d cfg := by
        simp [partitionsOnDisk, List.filter_cons, hc]
      rw [hfil] at hsplit
      obtain ⟨l1, l2, hcfg, hcount⟩ := ih ps1 hsplit
      exact ⟨u :: l1, l2, by simp [hcfg], by simp [countPartitionsOnDisk, hc, hcount]⟩

theorem ids_distinct_of_nodup (l1 l2 : List Volume) (vol : Volume)
    (hn : ((l1 ++ vol :: l2).map Volume.id).Nodup) :
    ∀ u ∈ l1, u.id ≠ vol.id := by
  intro u hu hEq
  have h1 : (l1.map Volume.id ++ (vol.id :: l2.map Volume.id)).Nodup := by simpa using hn
  have h2 := (List.nodup_append.mp h1).2.2
  exact h2 (List.mem_map_of_mem Volume.id hu) (by simp [hEq])

/-- Shared shape of `determine_partition_number` for a non-logical partition
without a truthy explicit number: 1 plus the count of preceding
`partition`-type entries on the same parent device. -/
theorem determine_nonlogical_eq (l1 l2 : List Volume) (vol : Volume)
    (hids : ∀ u ∈ l1, u.id ≠ vol.id)
    (htype : vol.type = "partition")
    (hnum : vol.number = none)
    (hflag : vol.flag ≠ some "logical") :
    determine_partition_number vol.id (l1 ++ vol :: l2) =
      some (1 + countPartitionsOnDisk vol.device l1) := by
  rw [determine_partition_number, lookupVol_append_of_not_before l1 l2 vol hids]
  simp [hflag, hnum, partCountBefore_append l1 l2 vol htype hids]

/-- Shared shape of `determine_partition_number` for a logical partition
without a truthy explicit number: 5 plus the count of preceding logical
partitions on the same parent device. -/
theorem determine_logical_eq (l1 l2 : List Volume) (vol : Volume)
    (hids : ∀ u ∈ l1, u.id ≠ vol.id)
    (htype : vol.type = "partition")
    (hnum : vol.number = none)
    (hflag : vol.flag = some "logical") :
    determine_partition_number vol.id (l1 ++ vol :: l2) =
      some (5 + countLogicalPartitionsOnDisk vol.device l1) := by
  rw [determine_partition_number, lookupVol_append_of_not_before l1 l2 vol hids]
  simp [hflag, hnum, logicalCountBefore_append l1 l2 vol htype hflag hids]

/-! ### C10, C5, C4: partition numbering -/

/-- C10: for every non-logical partition without an explicit (truthy) number
field, `determine_partition_number` returns 1 plus the count of ALL preceding
partition-type declarations on the same parent disk, including those with
flag=logical; hence a primary partition declared after k logical siblings on
the same disk receives a number inflated by k (the count predicate has no
flag restriction). -/
theorem c10_primary_number_counts_logical_siblings
    (cfg l1 l2 : List Volume) (vol : Volume)
    (hsplit : cfg = l1 ++ vol :: l2)
    (hids : ∀ u ∈ l1, u.id ≠ vol.id)
    (htype : vol.type = "partition")
    (hnum : vol.number = none)
    (hflag : vol.flag ≠ some "logical") :
    determine_partition_number vol.id cfg =
      some (1 + countPartitionsOnDisk vol.device l1) := by
  subst hsplit
  exact determine_nonlogical_eq l1 l2 vol hids htype hnum hflag

/-- C10 witness: in `wCfgMbr` the primary `q3` is declared after primaries
`q1`, `q2`, the extended `e1` and the logicals `l1`, `l2`, and receives
number 6 = 1 + 5 — inflated by the two logical siblings. -/
theorem c10_primary_number_counts_logical_siblings_witness :
    determine_partition_number "q3" wCfgMbr = some 6 := by
  have h := c10_primary_number_counts_logical_siblings wCfgMbr
    [wDiskMbr, wPrim1, wPrim2, wExt, wLog1, wLog2] [] wPrimLate rfl
    (by decide) rfl rfl (by decide)
  rw [show wPrimLate.id = "q3" from rfl] at h
  rw [h]
  decide

/-- C5: for every partition with flag=logical and no explicit (truthy)
number field, `determine_partition_number` returns 5 plus the count of
preceding logical partitions on the same disk, regardless of how many
primary partitions are declared before it (the count predicate only matches
logical-flagged partitions). -/
theorem c5_logical_numbering_starts_at_five
    (cfg l1 l2 : List Volume) (vol : Volume)
    (hsplit : cfg = l1 ++ vol :: l2)
    (hids : ∀ u ∈ l1, u.id ≠ vol.id)
    (htype : vol.type = "partition")
    (hnum : vol.number = none)
    (hflag : vol.flag = some "logical") :
    determine_partition_number vol.id cfg =
      some (5 + countLogicalPartitionsOnDisk vol.device l1) := by
  subst hsplit
  exact determine_logical_eq l1 l2 vol hids htype hnum hflag

/-- C5 witness: in `wCfgMbr` the first logical partition `l1` is numbered 5
even though two primaries and the extended partition precede it, and the
second logical `l2` is numbered 6. -/
theorem c5_logical_numbering_starts_at_five_witness :
    determine_partition_number "l1" wCfgMbr = some 5 ∧
    determine_partition_number "l2" wCfgMbr = some 6 := by
  constructor
  · have h := c5_logical_numbering_starts_at_five wCfgMbr
      [wDiskMbr, wPrim1, wPrim2, wExt] [wLog2, wPrimLate] wLog1 rfl
      (by decide) rfl rfl rfl
    rw [show wLog1.id = "l1" from rfl] at h
    rw [h]
    decide
  · have h := c5_logical_numbering_starts_at_five wCfgMbr
      [wDiskMbr, wPrim1, wPrim2, wExt, wLog1] [wPrimLate] wLog2 rfl
      (by decide) rfl rfl rfl
    rw [show wLog2.id = "l2" from rfl] at h
    rw [h]
    decide

/-- C4 counterexample: the claim's second half — "whenever a partition
declares an explicit number field, that number is returned regardless of
siblings" — fails at the declared number 0: `z0` in `wCfgNum0` declares
`number = 0` but `determine_partition_number` returns the computed sibling
count 2 (Python `if not partnumber` treats 0 like an unset number). -/
theorem c4_counterexample_number_zero :
    lookupVol wCfgNum0 "z0" = some wNum0 ∧
    wNum0.number = some 0 ∧
    determine_partition_number "z0" wCfgNum0 = some 2 := by
  refine ⟨by decide, rfl, by decide⟩

/-- C4 amended: (1) for a disk whose partitions (no truthy explicit numbers,
no logical flags) are declared in order P1..Pn, `determine_partition_number`
assigns exactly the numbers 1..n in declaration order — the i-th partition
on the disk (0-based i, with `ps1` the partitions before it) gets i+1; and
(2) whenever a partition declares an explicit NONZERO number, that number is
returned regardless of siblings.  (The original claim is falsified only at a
declared number 0, which Python truthiness treats as unset.) -/
theorem c4_amended_declaration_order_numbering :
    (∀ (d : String) (cfg ps1 ps2 : List Volume) (vol : Volume),
        (cfg.map Volume.id).Nodup →
        partitionsOnDisk d cfg = ps1 ++ vol :: ps2 →
        vol.number = none →
        vol.flag ≠ some "logical" →
        determine_partition_number vol.id cfg = some (ps1.length + 1)) ∧
    (∀ (cfg : List Volume) (pid : String) (vol : Volume) (n : Nat),
        lookupVol cfg pid = some vol →
        vol.number = some n →
        n ≠ 0 →
        determine_partition_number pid cfg = some n) := by
  constructor
  · intro d cfg ps1 ps2 vol hnodup hsplit hnum hflag
    have hmem : vol ∈ partitionsOnDisk d cfg := by
      rw [hsplit]; simp
    have hprop : vol.type = "partition" ∧ vol.device = some d := by
      have hm : vol ∈ cfg ∧ (vol.type = "partition" ∧ vol.device = some d) := by
        simpa [partitionsOnDisk, List.mem_filter] using hmem
      exact hm.2
    obtain ⟨l1, l2, hcfg, hcount⟩ := partitionsOnDisk_split d cfg ps1 ps2 vol hsplit
    have hids : ∀ u ∈ l1, u.id ≠ vol.id :=
      ids_distinct_of_nodup l1 l2 vol (by rw [← hcfg]; exact hnodup)
    rw [hcfg, determine_nonlogical_eq l1 l2 vol hids hprop.1 hnum hflag,
      hprop.2, hcount, Nat.add_comm]
  · intro cfg pid vol n hlook hnum hn
    rw [determine_partition_number, hlook]
    by_cases hf : vol.flag = some "logical" <;> simp [hf, hnum, hn]

/-- C4 witness: in `wCfgMbr` the primaries `q1`, `q2` (the first and second
partitions declared on disk `d1`) get numbers 1 and 2, and the explicit
nonzero number 9 declared by `z9` wins. -/
theorem c4_amended_declaration_order_numbering_witness :
    determine_partition_number "q1" wCfgMbr = some 1 ∧
    determine_partition_number "z9" wCfgNum9 = some 9 := by
  constructor
  · have h := c4_amended_declaration_order_numbering.1 "d1" wCfgMbr
      [] [wPrim2, wExt, wLog1, wLog2, wPrimLate] wPrim1 (by decide) (by decide) rfl (by decide)
    rw [show wPrim1.id = "q1" from rfl] at h
    simpa using h
  · have h := c4_amended_declaration_order_numbering.2 wCfgNum9 "z9" wNum9 9
      (by decide) rfl (by decide)
    exact h

/-! ### C7, C6: geometry -/

theorem getnumberoflogicaldisks_eq_logical_partitions (device : Option String) :
    ∀ cfg : List Volume,
      (∀ u ∈ cfg, u.device = device → u.flag = some "logical" → u.type = "partition") →
      getnumberoflogicaldisks device cfg = countLogicalPartitionsOnDisk device cfg := by
  intro cfg
  induction cfg with
  | nil => intro _; rfl
  | cons u cfg ih =>
    intro h
    have ih' := ih (fun w hw => h w (by simp [hw]))
    by_cases hc : u.device = device ∧ u.flag = some "logical"
    · have ht : u.type = "partition" := h u (by simp) hc.1 hc.2
      simp [getnumberoflogicaldisks, countLogicalPartitionsOnDisk, hc, ht, ih']
    · have hnc : ¬ (u.type = "partition" ∧ u.device = device ∧ u.flag = some "logical") := by
        intro hx
        exact hc ⟨hx.2.1, hx.2.2⟩
      simp [getnumberoflogicaldisks, countLogicalPartitionsOnDisk, hc, hnc, ih']

/-- C7: for a partition with flag=extended, the length in sectors used by
`partition_handler` (via `computeLengthSectors`) equals the length computed
from its declared size (`floor(bytes/lbs) - 1`) plus exactly one alignment
unit (1 MiB in logical sectors) per partition with flag=logical declared on
the same disk.  The hypothesis says every logical-flagged entry on the disk
is a partition (`getnumberoflogicaldisks` itself puts no type restriction on
what it counts). -/
theorem c7_extended_length_reserves_per_logical
    (cfg : List Volume) (device : Option String) (length_bytes lbs : Nat)
    (hlog : ∀ u ∈ cfg, u.device = device → u.flag = some "logical" → u.type = "partition") :
    computeLengthSectors device cfg (some "extended") length_bytes lbs =
      (Int.ofNat (length_bytes / lbs) - 1) +
        Int.ofNat (countLogicalPartitionsOnDisk device cfg * alignmentOffset lbs) := by
  simp [computeLengthSectors,
    getnumberoflogicaldisks_eq_logical_partitions device cfg hlog]

/-- C7 witness: in `wCfgMbr` the extended partition `e1` declares two logical
children, so a declared 4 GiB (8388608 sectors at 512 B, length 8388607)
is reserved as 8392703 = 8388607 + 2 * 2048 — exactly two alignment units
more. -/
theorem c7_extended_length_reserves_per_logical_witness :
    computeLengthSectors (some "d1") wCfgMbr (some "extended") (4 * 1024 ^ 3) 512 =
      8392703 ∧
    countLogicalPartitionsOnDisk (some "d1") wCfgMbr = 2 := by
  constructor
  · have h := c7_extended_length_reserves_per_logical wCfgMbr (some "d1")
      (4 * 1024 ^ 3) 512 (by decide)
    rw [h]
    decide
  · decide

/-- C6: for the graph {disk d1 (gpt, /dev/sda), partition p1 (device=d1,
size="2GB")} with 512-byte logical sectors, resolving p1 yields /dev/sda1,
and `partition_handler` computes start sector 2048 and length
2*1024^3/512 - 1 = 4194303 (the emitted `sgdisk` command creates partition 1
from sector 2048 with inclusive end sector 2048+4194303); in general a first
partition starts at `(1 << 20) / lbs` sectors and a declared size of B bytes
(not flagged extended) yields `floor(B/lbs) - 1` sectors. -/
theorem c6_scenario_first_partition_geometry :
    getPathToStorageVolume wEnv wCfgScenario 5 (some "p1") =
      ([Event.cmd ["partprobe", "/dev/sda"], Event.cmd ["udevadm", "settle"],
        Event.cmd ["partprobe", "/dev/sda"], Event.cmd ["udevadm", "settle"]],
        Except.ok "/dev/sda1") ∧
    (partitionPrelude wEnv 5 wPart2G wCfgScenario).2 =
      Except.ok ⟨wDiskGpt, "/dev/sda", "sda", 512, 1, 2048, 4194303⟩ ∧
    partition_handler wEnv 5 wPart2G wCfgScenario =
      ([Event.cmd ["partprobe", "/dev/sda"], Event.cmd ["udevadm", "settle"],
        Event.cmd ["partprobe", "/dev/sda"], Event.cmd ["udevadm", "settle"],
        Event.cmd ["sgdisk", "--new", "1:2048:4196351", "--typecode=1:8300", "/dev/sda"]],
        Except.ok ()) ∧
    (∀ (env : Env) (cfg : List Volume) (device : Option String) (pid kname : String)
        (pt fl : Option String) (lbs : Nat), 0 < lbs →
        computeOffsetSectors env cfg device pid kname pt fl 1 lbs =
          Except.ok ((1 <<< 20) / lbs)) ∧
    (∀ (device : Option String) (cfg : List Volume) (fl : Option String) (B lbs : Nat),
        0 < lbs → fl ≠ some "extended" →
        computeLengthSectors device cfg fl B lbs = Int.ofNat (B / lbs) - 1) := by
  refine ⟨by decide, by decide, by decide, ?_, ?_⟩
  · intro env cfg device pid kname pt fl lbs _
    simp [computeOffsetSectors, alignmentOffset]
  · intro device cfg fl B lbs _ hfl
    simp [computeLengthSectors, hfl]

/-- C6 witness: the general clauses applied at the scenario's inputs give
offset 2048 and length 4194303. -/
theorem c6_scenario_first_partition_geometry_witness :
    computeOffsetSectors wEnv wCfgScenario (some "d1") "p1" "sda" (some "gpt")
      none 1 512 = Except.ok 2048 ∧
    computeLengthSectors (some "d1") wCfgScenario none 2147483648 512 = 4194303 := by
  constructor
  · have h := c6_scenario_first_partition_geometry.2.2.2.1 wEnv wCfgScenario
      (some "d1") "p1" "sda" (some "gpt") none 512 (by decide)
    rw [h]
    decide
  · have h := c6_scenario_first_partition_geometry.2.2.2.2 (some "d1") wCfgScenario
      none 2147483648 512 (by decide) (by decide)
    rw [h]
    decide

/-! ### Trace lemmas: path resolution only emits device-sync commands -/

theorem devsync_trace (env : Env) (p : String) :
    ∀ e ∈ (devsync env p).1, isDevsyncEvent e = true := by
  intro e he
  simp [devsync] at he
  rcases he with h | h <;> simp [h, isDevsyncEvent]

theorem resolveBranch_trace (env : Env) (cfg : List Volume)
    (recurse : Option String → List Event × Except Err String)
    (hrec : ∀ v e, e ∈ (recurse v).1 → isDevsyncEvent e = true)
    (volume : Option String) (vol : Volume) :
    ∀ e ∈ (resolveBranch env cfg recurse volume vol).1, isDevsyncEvent e = true := by
  intro e he
  rw [resolveBranch] at he
  by_cases h1 : vol.type = "partition"
  · simp only [if_pos h1] at he
    cases hd : determine_partition_number vol.id cfg <;> rw [hd] at he
    · simp at he
    · rcases hr : recurse vol.device with ⟨t1, r1⟩
      rw [hr] at he
      refine hrec vol.device e ?_
      rw [hr]
      cases r1 <;> simpa using he
  · simp only [if_neg h1] at he
    by_cases h2 : vol.type = "disk"
    · simp only [if_pos h2] at he
      by_cases h3 : optTruthy vol.serial
      · simp only [if_pos h3] at he
        rcases hl : env.lookupDisk (pyStr vol.serial) with _ | p <;>
          rw [hl] at he <;> simp at he
      · simp only [if_neg h3] at he
        by_cases h4 : optTruthy vol.path <;> simp [h4] at he
    · simp only [if_neg h2] at he
      by_cases h3 : vol.type = "lvm_partition"
      · simp only [if_pos h3] at he
        rcases hv : storageGet cfg vol.volgroup with _ | vg <;> rw [hv] at he <;>
          dsimp only at he
        · simp at he
        · rcases hn : vg.name with _ | a <;> rcases hm : vol.name with _ | b <;>
            rw [hn, hm] at he <;> simp at he
      · simp only [if_neg h3] at he
        by_cases h4 : vol.type = "dm_crypt"
        · simp only [if_pos h4] at he
          simp at he
        · simp only [if_neg h4] at he
          by_cases h5 : vol.type = "raid"
          · simp only [if_pos h5] at he
            rcases hn : vol.name with _ | n <;> rw [hn] at he <;> simp at he
          · simp only [if_neg h5] at he
            by_cases h6 : vol.type = "bcache"
            · simp only [if_pos h6] at he
              rcases hr : recurse vol.backing_device with ⟨t1, r1⟩
              rw [hr] at he
              refine hrec vol.backing_device e ?_
              rw [hr]
              cases r1 with
              | error err => simpa using he
              | ok bp =>
                dsimp only at he ⊢
                rcases hb : env.bcacheName (pathSplit bp).2 with _ | bn <;>
                  rw [hb] at he <;> simpa using he
            · simp only [if_neg h6] at he
              simp at he

theorem getPath_trace_devsync (env : Env) (cfg : List Volume) :
    ∀ (fuel : Nat) (v : Option String),
      ∀ e ∈ (getPathToStorageVolume env cfg fuel v).1, isDevsyncEvent e = true := by
  intro fuel
  induction fuel with
  | zero => intro v e he; simp [getPathToStorageVolume] at he
  | succ fuel ih =>
    intro v e he
    rw [getPathToStorageVolume] at he
    split at he
    · simp at he
    · rename_i vol heq
      split at he
      · rename_i t err hbr
        exact resolveBranch_trace env cfg _ (fun w ev hm => ih w ev hm) v vol e
          (by rw [hbr]; simpa using he)
      · rename_i t vp dv hbr
        simp only [devsync] at he
        simp at he
        rcases he with h1 | h1 | h1
        · exact resolveBranch_trace env cfg _ (fun w ev hm => ih w ev hm) v vol e
            (by rw [hbr]; simpa using h1)
        · simp [h1, isDevsyncEvent]
        · simp [h1, isDevsyncEvent]

theorem partitionPrelude_trace (env : Env) (fuel : Nat) (info : Volume) (cfg : List Volume) :
    ∀ e ∈ (partitionPrelude env fuel info cfg).1, isDevsyncEvent e = true := by
  intro e he
  rw [partitionPrelude] at he
  rcases hs : storageGet cfg info.device with _ | diskVol <;> rw [hs] at he <;>
    dsimp only at he
  · simp at he
  · split at he
    · simp at he
    · split at he
      · simp at he
      · rcases h1 : getPathToStorageVolume env cfg fuel info.device with ⟨t1, r1⟩
        rw [h1] at he
        cases r1 with
        | error e1 =>
          dsimp only at he
          exact getPath_trace_devsync env cfg fuel info.device e
            (by rw [h1]; simpa using he)
        | ok disk =>
          dsimp only at he
          rcases hd : determine_partition_number info.id cfg with _ | pn <;>
            rw [hd] at he <;> dsimp only at he
          · exact getPath_trace_devsync env cfg fuel info.device e
              (by rw [h1]; simpa using he)
          · have hmem : e ∈ t1 ++ t1 := by
              rcases ho : computeOffsetSectors env cfg info.device info.id
                  (pathSplit disk).2 diskVol.ptable info.flag pn
                  (match env.sectorSize (pathSplit disk).2 with
                    | some n => n
                    | none => 512) with eo | oo <;> rw [ho] at he <;> dsimp only at he
              · exact he
              · rcases hh : human2bytes (pyStr info.size) with _ | lb <;>
                  rw [hh] at he <;> dsimp only at he
                · exact he
                · exact he
            rcases List.mem_append.mp hmem with hm | hm <;>
              exact getPath_trace_devsync env cfg fuel info.device e
                (by rw [h1]; simpa using hm)

/-! ### C1: preserve semantics of partition_handler -/

/-- C1 counterexample: in `wCfgPreservedPart` the partition `p1` has
preserve=true while its parent disk `d1` has preserve=false (unset);
`partition_handler` on `p1` SUCCEEDS — it returns after the geometry
computation having emitted only device-sync commands, with no fatal
configuration error and no partition-creation command — contradicting the
claim that this combination fails. -/
theorem c1_counterexample_preserved_partition_succeeds :
    wPartPreserved.preserve = true ∧
    wDiskGpt.preserve = false ∧
    partition_handler wEnv 5 wPartPreserved wCfgPreservedPart =
      ([Event.cmd ["partprobe", "/dev/sda"], Event.cmd ["udevadm", "settle"],
        Event.cmd ["partprobe", "/dev/sda"], Event.cmd ["udevadm", "settle"]],
        Except.ok ()) :=
  ⟨rfl, rfl, by decide⟩

/-- C1 amended: the preserve consistency check goes the OTHER way around.
Whenever the geometry prelude succeeds, a partition with preserve=true
returns successfully without issuing any partition-creation command
(its trace holds only device-sync commands), regardless of the parent
disk's preserve flag; and a partition with preserve=false whose parent disk
has preserve=true fails with the fatal
`NotImplementedError` preserve-consistency error. -/
theorem c1_amended_preserve_is_returned_not_rejected
    (env : Env) (fuel : Nat) (info : Volume) (cfg : List Volume)
    (t : List Event) (ctx : PartCtx)
    (hpre : partitionPrelude env fuel info cfg = (t, Except.ok ctx)) :
    (info.preserve = true →
      partition_handler env fuel info cfg = (t, Except.ok ()) ∧
      ∀ e ∈ t, isDevsyncEvent e = true) ∧
    (info.preserve = false → ctx.diskVol.preserve = true →
      partition_handler env fuel info cfg =
        (t, Except.error (Err.notImplementedError (preserveErrMsg info)))) := by
  constructor
  · intro hp
    constructor
    · rw [partition_handler, hpre]
      simp [hp]
    · intro e he
      exact partitionPrelude_trace env fuel info cfg e (by rw [hpre]; simpa using he)
  · intro hp hd
    rw [partition_handler, hpre]
    simp [hp, hd]

/-- C1 witness: with the parent disk preserved and the partition not
preserved, the handler raises the `NotImplementedError`; the prelude
hypothesis is discharged at the concrete scenario graph. -/
theorem c1_amended_preserve_is_returned_not_rejected_witness :
    partition_handler wEnv 5 wPart2G wCfgPreservedDisk =
      ([Event.cmd ["partprobe", "/dev/sda"], Event.cmd ["udevadm", "settle"],
        Event.cmd ["partprobe", "/dev/sda"], Event.cmd ["udevadm", "settle"]],
        Except.error (Err.notImplementedError (preserveErrMsg wPart2G))) :=
  (c1_amended_preserve_is_returned_not_rejected wEnv 5 wPart2G wCfgPreservedDisk
    [Event.cmd ["partprobe", "/dev/sda"], Event.cmd ["udevadm", "settle"],
      Event.cmd ["partprobe", "/dev/sda"], Event.cmd ["udevadm", "settle"]]
    ⟨wDiskGptPreserved, "/dev/sda", "sda", 512, 1, 2048, 4194303⟩
    (by decide)).2 rfl rfl

/-! ### C3: bcache with backing device only and cache_mode set -/

/-- C3 counterexample: for `wCfgBcache` (backing device `db`, no
`cache_device`, `cache_mode` set) the handler does fail with a
`ValueError` — but it is the path resolver's volume-not-found error for the
unset cache_device, raised only AFTER external commands (`partprobe`,
`udevadm settle`) were invoked to resolve the backing device; it is not
raised "before any external tool has been invoked", and the handler's own
cache-mode check (which fires only when there is no backing device) is never
reached. -/
theorem c3_counterexample_commands_run_before_failure :
    bcache_handler wEnv 5 wBcacheNoCache wCfgBcache =
      ([Event.cmd ["partprobe", "/dev/sdb"], Event.cmd ["udevadm", "settle"]],
        Except.error (Err.valueError "volume with id \x27None\x27 not found")) ∧
    Event.cmd ["partprobe", "/dev/sdb"] ∈ (bcache_handler wEnv 5 wBcacheNoCache wCfgBcache).1 :=
  ⟨by decide, by decide⟩

/-- C3 amended: a bcache volume declaration with no `cache_device` always
makes `bcache_handler` fail with an error (the unresolvable cache_device
reference — or an earlier failure resolving the backing device), and at that
point only device-synchronization commands (`partprobe` / `udevadm settle`)
from path resolution have run: no bcache-specific tool (`modprobe`,
`make-bcache`, `bcache-super-show`) has been invoked. -/
theorem c3_amended_fails_before_bcache_tools
    (env : Env) (fuel : Nat) (info : Volume) (cfg : List Volume)
    (hNoCache : info.cache_device = none) :
    ∃ t e, bcache_handler env fuel info cfg = (t, Except.error e) ∧
      ∀ ev ∈ t, isDevsyncEvent ev = true := by
  have hcache : ∃ e2, getPathToStorageVolume env cfg fuel none =
      ([], Except.error e2) := by
    cases fuel with
    | zero => exact ⟨Err.recursionError, rfl⟩
    | succ f => exact ⟨Err.valueError "volume with id \x27None\x27 not found", rfl⟩
  obtain ⟨e2, h2⟩ := hcache
  rw [bcache_handler]
  rcases h1 : getPathToStorageVolume env cfg fuel info.backing_device with ⟨t1, r1⟩
  cases r1 with
  | error e1 =>
    refine ⟨t1, e1, rfl, ?_⟩
    intro ev hev
    exact getPath_trace_devsync env cfg fuel info.backing_device ev
      (by rw [h1]; simpa using hev)
  | ok bp =>
    rw [hNoCache, h2]
    refine ⟨t1 ++ [], e2, rfl, ?_⟩
    intro ev hev
    exact getPath_trace_devsync env cfg fuel info.backing_device ev
      (by rw [h1]; simpa using hev)

/-- C3 witness: the amended theorem applied at the concrete scenario graph. -/
theorem c3_amended_fails_before_bcache_tools_witness :
    ∃ t e, bcache_handler wEnv 5 wBcacheNoCache wCfgBcache = (t, Except.error e) ∧
      ∀ ev ∈ t, isDevsyncEvent ev = true :=
  c3_amended_fails_before_bcache_tools wEnv 5 wBcacheNoCache wCfgBcache rfl

/-! ### C8: dm_crypt mapper path -/

theorem pathJoin_dev_mapper (x : String) (hx : strStartsWith x "/" = false) :
    pathJoin "/dev/mapper" x = "/dev/mapper/" ++ x := by
  rw [pathJoin, hx]
  rw [if_neg (by decide)]
  rw [if_neg (by decide)]
  rw [show ("/dev/mapper" ++ "/" : String) = "/dev/mapper/" by decide]

/-- C8: resolving a dm_crypt volume's id yields exactly
`/dev/mapper/<dm_name>`, where `dm_name` is the declared `dm_name` field if
truthy and otherwise defaults to the volume's id (`dmCryptResolveName`); and
the name the resolver uses agrees with the name `dm_crypt_handler` passes to
`cryptsetup open` when constructing the mapping (`dmCryptHandlerName`), so
construction followed by resolution round-trips.  Hypotheses: the name does
not start with `/` (`os.path.join` would discard the `/dev/mapper` prefix
otherwise) and the mapper path appears for `devsync`. -/
theorem c8_dm_crypt_mapper_roundtrip
    (env : Env) (cfg : List Volume) (fuel : Nat) (vid : String) (vol : Volume)
    (hlook : lookupVol cfg vid = some vol)
    (htype : vol.type = "dm_crypt")
    (hslash : strStartsWith (dmCryptResolveName vol) "/" = false)
    (hexists : env.pathExists ("/dev/mapper/" ++ dmCryptResolveName vol) = true) :
    getPathToStorageVolume env cfg (fuel + 1) (some vid) =
      ([Event.cmd ["partprobe", "/dev/mapper/" ++ dmCryptResolveName vol],
        Event.cmd ["udevadm", "settle"]],
        Except.ok ("/dev/mapper/" ++ dmCryptResolveName vol)) ∧
    dmCryptHandlerName vol = dmCryptResolveName vol := by
  constructor
  · rw [getPathToStorageVolume]
    have hsg : storageGet cfg (some vid) = some vol := hlook
    rw [hsg]
    dsimp only
    rw [resolveBranch]
    rw [if_neg (by rw [htype]; decide)]
    rw [if_neg (by rw [htype]; decide)]
    rw [if_neg (by rw [htype]; decide)]
    rw [if_pos htype]
    have hjoin : pathJoin (pathJoin "/dev" "mapper") (dmCryptResolveName vol) =
        "/dev/mapper/" ++ dmCryptResolveName vol := by
      rw [show pathJoin "/dev" "mapper" = "/dev/mapper" by decide]
      exact pathJoin_dev_mapper _ hslash
    dsimp only
    rw [hjoin]
    have hne : ("/dev/mapper/" ++ dmCryptResolveName vol) = "" → False := by
      intro hh
      have : ("/dev/mapper/" ++ dmCryptResolveName vol).data = [] := by rw [hh]
      simp [String.data_append] at this
    rw [if_neg hne]
    rw [devsync, hexists]
    simp
  · rw [dmCryptHandlerName, dmCryptResolveName]
    cases h : vol.dm_name with
    | none => simp [optTruthy]
    | some s =>
      by_cases hs : s = "" <;> simp [optTruthy, hs, pyStr]

/-- C8 witness: the dm_crypt volume `crypt0` with no declared `dm_name`
resolves to `/dev/mapper/crypt0`, and the handler opens the mapping under
the same name. -/
theorem c8_dm_crypt_mapper_roundtrip_witness :
    getPathToStorageVolume wEnv wCfgCrypt 5 (some "crypt0") =
      ([Event.cmd ["partprobe", "/dev/mapper/crypt0"], Event.cmd ["udevadm", "settle"]],
        Except.ok "/dev/mapper/crypt0") ∧
    dmCryptHandlerName wCrypt = "crypt0" := by
  have h := c8_dm_crypt_mapper_roundtrip wEnv wCfgCrypt 4 "crypt0" wCrypt
    (by decide) rfl (by decide) (by decide)
  constructor
  · rw [show (5 : Nat) = 4 + 1 from rfl, h.1]
    decide
  · rw [h.2]
    decide

/-! ### C9: dm_crypt keyfile lifecycle -/

theorem fileStep_id_of_devsync (p : String) (e : Event) (he : isDevsyncEvent e = true)
    (b : Bool) : fileStep p b e = b := by
  cases e with
  | cmd a => rfl
  | writeFile q => simp [isDevsyncEvent] at he
  | removeFile q => simp [isDevsyncEvent] at he

theorem foldl_fileStep_devsync (p : String) (t : List Event)
    (ht : ∀ e ∈ t, isDevsyncEvent e = true) (b : Bool) :
    t.foldl (fileStep p) b = b := by
  induction t generalizing b with
  | nil => rfl
  | cons e t ih =>
    rw [List.foldl_cons, fileStep_id_of_devsync p e (ht e (by simp)) b]
    exact ih (fun x hx => ht x (by simp [hx])) b

/-- C9 counterexample: when `cryptsetup luksFormat` exits non-zero
(`wEnvFmtFail`), `dm_crypt_handler` propagates the error after having
written the key to the transient keyfile, and the keyfile still exists on
that exit path — `os.remove` is only reached on the success path, so the
claim's "removed ... including on every exit path" is false. -/
theorem c9_counterexample_keyfile_survives_failed_format :
    (dm_crypt_handler wEnvFmtFail 5 wCrypt wCfgCrypt).2 =
      Except.error (Err.processError
        ["cryptsetup", "luksFormat", "/dev/sdb", "/tmp/tmpkeyfile"]) ∧
    Event.cmd ["cryptsetup", "luksFormat", "/dev/sdb", "/tmp/tmpkeyfile"] ∈
      (dm_crypt_handler wEnvFmtFail 5 wCrypt wCfgCrypt).1 ∧
    fileExistsAfter "/tmp/tmpkeyfile"
      (dm_crypt_handler wEnvFmtFail 5 wCrypt wCfgCrypt).1 = true :=
  ⟨by decide, by decide, by decide⟩

/-- C9 amended: on every SUCCESSFUL run of `dm_crypt_handler` the key is
written to the transient keyfile before either `cryptsetup` invocation (the
preceding trace `t0` holds only device-sync commands), the keyfile is
removed immediately after the format and open invocations, and it no longer
exists at the end of the handler; on an exit path where a `cryptsetup`
invocation fails, however, the handler propagates the error without removing
the keyfile (see the counterexample). -/
theorem c9_amended_keyfile_lifecycle
    (env : Env) (fuel : Nat) (info : Volume) (cfg : List Volume) (t : List Event)
    (hrun : dm_crypt_handler env fuel info cfg = (t, Except.ok ()))
    (hcr : pathJoin (pathSplit (pyStr env.fstab)).1 "crypttab" ≠ env.tmpKeyfile) :
    ∃ t0 vp t3,
      t = t0 ++ Event.writeFile env.tmpKeyfile ::
        Event.cmd (dmCryptFmtCmd info vp env.tmpKeyfile) ::
        Event.cmd (dmCryptOpenCmd info vp env.tmpKeyfile) ::
        Event.removeFile env.tmpKeyfile :: t3 ∧
      (∀ e ∈ t0, isDevsyncEvent e = true) ∧
      "luksFormat" ∈ dmCryptFmtCmd info vp env.tmpKeyfile ∧
      "open" ∈ dmCryptOpenCmd info vp env.tmpKeyfile ∧
      fileExistsAfter env.tmpKeyfile t = false := by
  rw [dm_crypt_handler] at hrun
  cases hv : optTruthy info.volume with
  | false =>
    rw [if_pos (by simp [hv])] at hrun
    simp at hrun
  | true =>
    rw [if_neg (by simp [hv])] at hrun
    cases hk : optTruthy info.key with
    | false =>
      rw [if_pos (by simp [hk])] at hrun
      simp at hrun
    | true =>
      rw [if_neg (by simp [hk])] at hrun
      rcases hg : getPathToStorageVolume env cfg fuel info.volume with ⟨tr, rr⟩
      rw [hg] at hrun
      cases rr with
      | error er => simp at hrun
      | ok vp =>
        dsimp only at hrun
        have hdev : ∀ e ∈ tr, isDevsyncEvent e = true := by
          intro e he
          exact getPath_trace_devsync env cfg fuel info.volume e (by rw [hg]; simpa using he)
        cases hsf : env.subpOk (dmCryptFmtCmd info vp env.tmpKeyfile) with
        | false =>
          rw [if_pos (by simp [hsf])] at hrun
          simp at hrun
        | true =>
          rw [if_neg (by simp [hsf])] at hrun
          cases hso : env.subpOk (dmCryptOpenCmd info vp env.tmpKeyfile) with
          | false =>
            rw [if_pos (by simp [hso])] at hrun
            simp at hrun
          | true =>
            rw [if_neg (by simp [hso])] at hrun
            have hfile : ∀ t3 : List Event,
                (∀ e ∈ t3, fileStep env.tmpKeyfile false e = false) →
                fileExistsAfter env.tmpKeyfile
                  (tr ++ Event.writeFile env.tmpKeyfile ::
                    Event.cmd (dmCryptFmtCmd info vp env.tmpKeyfile) ::
                    Event.cmd (dmCryptOpenCmd info vp env.tmpKeyfile) ::
                    Event.removeFile env.tmpKeyfile :: t3) = false := by
              intro t3 ht3
              rw [fileExistsAfter, List.foldl_append]
              rw [foldl_fileStep_devsync env.tmpKeyfile tr hdev]
              simp only [List.foldl_cons]
              rw [show fileStep env.tmpKeyfile false (Event.writeFile env.tmpKeyfile) = true by
                simp [fileStep]]
              rw [show fileStep env.tmpKeyfile true
                  (Event.cmd (dmCryptFmtCmd info vp env.tmpKeyfile)) = true from rfl]
              rw [show fileStep env.tmpKeyfile true
                  (dmCryptOpenCmd info vp env.tmpKeyfile |> Event.cmd) = true from rfl]
              rw [show fileStep env.tmpKeyfile true
                  (Event.removeFile env.tmpKeyfile) = false by simp [fileStep]]
              induction t3 with
              | nil => rfl
              | cons x xs ihx =>
                rw [List.foldl_cons, ht3 x (by simp)]
                exact ihx (fun y hy => ht3 y (by simp [hy]))
            cases hft : optTruthy env.fstab with
            | true =>
              rw [if_pos (by simp [hft])] at hrun
              have ht := congrArg Prod.fst hrun
              dsimp only at ht
              refine ⟨tr, vp,
                [Event.writeFile (pathJoin (pathSplit (pyStr env.fstab)).1 "crypttab")],
                ?_, hdev, ?_, ?_, ?_⟩
              · rw [← ht]
                simp
              · simp [dmCryptFmtCmd]
              · simp [dmCryptOpenCmd]
              · rw [← ht]
                have := hfile
                  [Event.writeFile (pathJoin (pathSplit (pyStr env.fstab)).1 "crypttab")]
                  (by intro e he
                      simp at he
                      simp [he, fileStep, hcr])
                convert this using 2
                simp
            | false =>
              rw [if_neg (by simp [hft])] at hrun
              have ht := congrArg Prod.fst hrun
              dsimp only at ht
              refine ⟨tr, vp, [], ?_, hdev, ?_, ?_, ?_⟩
              · rw [← ht]
                simp
              · simp [dmCryptFmtCmd]
              · simp [dmCryptOpenCmd]
              · rw [← ht]
                have := hfile [] (by intro e he; simp at he)
                convert this using 2
                simp

/-- C9 witness: a successful run at the concrete crypt graph — the trace
decomposes as the amended claim states and the keyfile is gone at the
end. -/
theorem c9_amended_keyfile_lifecycle_witness :
    ∃ t0 vp t3,
      (dm_crypt_handler wEnv 5 wCrypt wCfgCrypt).1 =
        t0 ++ Event.writeFile wEnv.tmpKeyfile ::
          Event.cmd (dmCryptFmtCmd wCrypt vp wEnv.tmpKeyfile) ::
          Event.cmd (dmCryptOpenCmd wCrypt vp wEnv.tmpKeyfile) ::
          Event.removeFile wEnv.tmpKeyfile :: t3 ∧
      (∀ e ∈ t0, isDevsyncEvent e = true) ∧
      "luksFormat" ∈ dmCryptFmtCmd wCrypt vp wEnv.tmpKeyfile ∧
      "open" ∈ dmCryptOpenCmd wCrypt vp wEnv.tmpKeyfile ∧
      fileExistsAfter wEnv.tmpKeyfile (dm_crypt_handler wEnv 5 wCrypt wCfgCrypt).1 = false :=
  c9_amended_keyfile_lifecycle wEnv 5 wCrypt wCfgCrypt
    (dm_crypt_handler wEnv 5 wCrypt wCfgCrypt).1 (by decide) (by decide)

/-! ### C2: dispatcher and unknown volume types -/

/-- C2 counterexample: dispatching the single-entry graph `[wUnknown]`
(id `v1`, type `fancy`) raises
`ValueError("unknown command type 'fancy'")` — the message names the
offending TYPE and does not contain the offending volume's id `v1`,
contradicting the claim that the message names the id. -/
theorem c2_counterexample_message_names_type_not_id :
    (metaCustom (fun _ => ([], Except.ok ())) [wUnknown]).2 =
      Except.error (Err.valueError "unknown command type \x27fancy\x27") ∧
    ¬ ("v1".data <:+: "unknown command type \x27fancy\x27".data) ∧
    ("fancy".data <:+: "unknown command type \x27fancy\x27".data) :=
  ⟨by decide, by decide, by decide⟩

/-- C2 amended: for every storage graph containing a volume whose declared
type is not one of the nine known kinds, the dispatcher raises a
`ValueError` whose message names the offending volume's declared TYPE (not
its id), and it does so before any command has been executed for that
volume: whatever the handlers `runH` do, if the entries before the offending
one are well-typed and succeed, the run aborts with the unknown-type error
and no event of the emitted trace is tagged with the offending id. -/
theorem c2_amended_unknown_type_fails_naming_type
    (runH : Volume → List Event × Except Err Unit)
    (pre : List Volume) (v : Volume) (post : List Volume)
    (hunk : v.type ∉ knownHandlerTypes)
    (hok : ∀ u ∈ pre, (runH u).2 = Except.ok ())
    (hkn : ∀ u ∈ pre, u.type ∈ knownHandlerTypes)
    (hid : ∀ u ∈ pre, u.id ≠ v.id) :
    ∃ tr, metaCustom runH (pre ++ v :: post) =
      (tr, Except.error (Err.valueError
        ("unknown command type \x27" ++ v.type ++ "\x27"))) ∧
      ∀ p ∈ tr, p.1 ≠ v.id := by
  induction pre with
  | nil =>
    refine ⟨[], ?_, by simp⟩
    rw [List.nil_append, metaCustom, if_neg hunk]
  | cons u pre ih =>
    obtain ⟨tr, htr, hnid⟩ := ih (fun w hw => hok w (by simp [hw]))
      (fun w hw => hkn w (by simp [hw])) (fun w hw => hid w (by simp [hw]))
    rcases hu : runH u with ⟨tu, ru⟩
    have hruo : ru = Except.ok () := by
      have h0 := hok u (by simp)
      rw [hu] at h0
      simpa using h0
    refine ⟨tu.map (fun e => (u.id, e)) ++ tr, ?_, ?_⟩
    · rw [List.cons_append, metaCustom, if_pos (hkn u (by simp)), hu, hruo]
      dsimp only
      rw [htr]
    · intro p hp
      rcases List.mem_append.mp hp with h | h
      · obtain ⟨e, _, hpe⟩ := List.mem_map.mp h
        rw [← hpe]
        exact hid u (by simp)
      · exact hnid p h

/-- C2 witness: a disk followed by the unknown-typed `v1` — the run aborts
with the unknown-type message and no command of the trace is tagged with
`v1`. -/
theorem c2_amended_unknown_type_fails_naming_type_witness :
    ∃ tr, metaCustom (fun _ => ([], Except.ok ())) [wDiskB, wUnknown] =
      (tr, Except.error (Err.valueError "unknown command type \x27fancy\x27")) ∧
      ∀ p ∈ tr, p.1 ≠ "v1" := by
  have h := c2_amended_unknown_type_fails_naming_type (fun _ => ([], Except.ok ()))
    [wDiskB] wUnknown [] (by decide) (by intro u _; rfl) (by decide) (by decide)
  exact h
